import Mathlib

/-!
Verification of `iran_national_code.py`: normalization and validation of
10-digit Iranian national identification numbers.

The source is a single pure function `validate_iran_national_code` taking a
raw value (Python `None`, `int`, or `str`) and returning a triple
`(normalized_code, is_valid, message)`.  We embed the raw input as an
inductive type, the textual conversion `str(raw_code)` as `rawText`, and the
function body as `validate_iran_national_code` below, following the source
line by line.
-/

/-- The caller-supplied raw value: Python `None`, an integer, or a string. -/
inductive RawInput where
  | absent : RawInput
  | int : Int → RawInput
  | str : String → RawInput
deriving DecidableEq

/-- Python `str(raw_code)`.  For `None` the source returns before calling
`str`, so the value chosen here for `absent` is irrelevant. -/
def rawText : RawInput → String
  | .absent => ""
  | .int n => toString n
  | .str s => s

/-- The codepoint ranges of the Unicode decimal-digit category `Nd`: exactly
the characters Python's `\d` matches on a `str` pattern, hence exactly the
characters `re.sub(r"\D", "", ...)` keeps.  Every range is a consecutive run
of digits carrying the values `0`..`9` in order (the run at 120782 is five
such runs back to back). -/
def ndRanges : List (Nat × Nat) :=
  [(48, 57), (1632, 1641), (1776, 1785), (1984, 1993), (2406, 2415),
   (2534, 2543), (2662, 2671), (2790, 2799), (2918, 2927), (3046, 3055),
   (3174, 3183), (3302, 3311), (3430, 3439), (3558, 3567), (3664, 3673),
   (3792, 3801), (3872, 3881), (4160, 4169), (4240, 4249), (6112, 6121),
   (6160, 6169), (6470, 6479), (6608, 6617), (6784, 6793), (6800, 6809),
   (6992, 7001), (7088, 7097), (7232, 7241), (7248, 7257), (42528, 42537),
   (43216, 43225), (43264, 43273), (43472, 43481), (43504, 43513),
   (43600, 43609), (44016, 44025), (65296, 65305), (66720, 66729),
   (68912, 68921), (69734, 69743), (69872, 69881), (69942, 69951),
   (70096, 70105), (70384, 70393), (70736, 70745), (70864, 70873),
   (71248, 71257), (71360, 71369), (71472, 71481), (71904, 71913),
   (72016, 72025), (72784, 72793), (73040, 73049), (73120, 73129),
   (92768, 92777), (92864, 92873), (93008, 93017), (120782, 120831),
   (123200, 123209), (123632, 123641), (125264, 125273), (130032, 130041)]

/-- The character class `\d` of the regex `re.sub(r"\D", "", ...)`: a
character is kept iff it is a Unicode decimal digit (category `Nd`),
e.g. ASCII `0`..`9` but also Persian `۰`..`۹`. -/
def isDecimalDigit (c : Char) : Bool :=
  ndRanges.any (fun r => decide (r.1 ≤ c.toNat) && decide (c.toNat ≤ r.2))

/-- `re.sub(r"\D", "", s)`: drop every non-digit character, keeping order. -/
def extractDigits (s : String) : String :=
  String.mk (s.data.filter isDecimalDigit)

/-- `s.zfill(width)` on a digit-only string: left-pad with `'0'` up to
`width` characters (the sign handling of Python's `zfill` never triggers
because the argument contains only digits). -/
def zfill (s : String) (width : Nat) : String :=
  String.mk (List.replicate (width - s.data.length) '0' ++ s.data)

/-- `int(c)` for a single decimal-digit character: its decimal value, the
offset of its codepoint from the start of its `Nd` run, modulo 10.  The
source only applies `int` to characters kept by the extraction; on other
characters (where `int` has no digit to parse) the value here is 0. -/
def digitVal (c : Char) : Nat :=
  match ndRanges.find? (fun r => decide (r.1 ≤ c.toNat) && decide (c.toNat ≤ r.2)) with
  | some r => (c.toNat - r.1) % 10
  | none => 0

/-- `len(set(normalized)) == 1`: the string is non-empty and all its
characters are equal. -/
def allIdentical (s : String) : Bool :=
  match s.data with
  | [] => false
  | c :: rest => rest.all (fun x => x == c)

/-- `total = sum(int(normalized[i]) * (10 - i) for i in range(9))`. -/
def weightedTotal (s : String) : Nat :=
  ((List.range 9).map (fun i => digitVal (s.data.getD i '0') * (10 - i))).sum

/-- `check = int(normalized[-1])`: the value of the last character. -/
def checkDigit (s : String) : Nat :=
  digitVal (s.data.getD (s.data.length - 1) '0')

/-- Steps 3 and 4 of the source applied to the already-normalized 10-digit
string: the all-identical rejection followed by the mod-11 checksum. -/
def checkNormalized (normalized : String) : String × Bool × String :=
  if allIdentical normalized then
    (normalized, false, "all digits identical")
  else if (decide (weightedTotal normalized % 11 < 2) &&
            (checkDigit normalized == weightedTotal normalized % 11)) ||
          (decide (2 ≤ weightedTotal normalized % 11) &&
            (checkDigit normalized == 11 - weightedTotal normalized % 11)) then
    (normalized, true, "valid national code")
  else
    (normalized, false, "checksum mismatch")

/-- The whole of `validate_iran_national_code` from the source:
`None` check, digit extraction, length normalization, then
`checkNormalized`. -/
def validate_iran_national_code (raw : RawInput) : String × Bool × String :=
  match raw with
  | .absent => ("", false, "empty input")
  | _ =>
    if (extractDigits (rawText raw)).data = [] then
      ("", false, "no digits found")
    else if (extractDigits (rawText raw)).data.length < 10 then
      checkNormalized (zfill (extractDigits (rawText raw)) 10)
    else if 10 < (extractDigits (rawText raw)).data.length then
      ("", false, "more than 10 digits")
    else
      checkNormalized (extractDigits (rawText raw))

/-- The digit list of a normalized code, as the claims speak of `d[0..9]`. -/
def digitsOf (s : String) : List Nat := s.data.map digitVal

/-- The claims' weighted sum `total = Σ_{i=0..8} d[i] * (10 - i)`. -/
def specTotal (d : List Nat) : Nat :=
  ((List.range 9).map (fun i => d.getD i 0 * (10 - i))).sum

/-- The claims' acceptance condition on the digit list: with
`check = d[9]` and `remainder = total mod 11`, accept iff
`check = remainder` when `remainder < 2`, else `check = 11 - remainder`. -/
def specChecksumAccepts (d : List Nat) : Bool :=
  if specTotal d % 11 < 2 then d.getD 9 0 == specTotal d % 11
  else d.getD 9 0 == 11 - specTotal d % 11

lemma stringMk_data (s : String) : String.mk s.data = s := rfl

lemma validate_eq_body (raw : RawInput) (h : raw ≠ RawInput.absent) :
    validate_iran_national_code raw =
      (if (extractDigits (rawText raw)).data = [] then
        (("", false, "no digits found") : String × Bool × String)
      else if (extractDigits (rawText raw)).data.length < 10 then
        checkNormalized (zfill (extractDigits (rawText raw)) 10)
      else if 10 < (extractDigits (rawText raw)).data.length then
        ("", false, "more than 10 digits")
      else
        checkNormalized (extractDigits (rawText raw))) := by
  cases raw with
  | absent => exact absurd rfl h
  | int n => rfl
  | str s => rfl

lemma checkNormalized_fst (m : String) : (checkNormalized m).1 = m := by
  unfold checkNormalized
  split
  · rfl
  · split <;> rfl

lemma checkNormalized_cases (m : String) :
    checkNormalized m = (m, false, "all digits identical") ∨
    checkNormalized m = (m, true, "valid national code") ∨
    checkNormalized m = (m, false, "checksum mismatch") := by
  unfold checkNormalized
  split
  · exact Or.inl rfl
  · split
    · exact Or.inr (Or.inl rfl)
    · exact Or.inr (Or.inr rfl)

lemma checkNormalized_valid (m : String)
    (h : (checkNormalized m).2.1 = true) :
    allIdentical m = false ∧
      ((decide (weightedTotal m % 11 < 2) &&
          (checkDigit m == weightedTotal m % 11)) ||
        (decide (2 ≤ weightedTotal m % 11) &&
          (checkDigit m == 11 - weightedTotal m % 11))) = true := by
  unfold checkNormalized at h
  split at h
  · simp at h
  · rename_i hni
    split at h
    · exact ⟨Bool.eq_false_iff.mpr hni, by assumption⟩
    · simp at h

lemma zfill_data (s : String) :
    (zfill s 10).data = List.replicate (10 - s.data.length) '0' ++ s.data := rfl

lemma zfill_length (s : String) (hle : s.data.length ≤ 10) :
    (zfill s 10).data.length = 10 := by
  rw [zfill_data, List.length_append, List.length_replicate]
  omega

lemma zfill_eq_self (s : String) (hlen : s.data.length = 10) :
    zfill s 10 = s := by
  unfold zfill
  rw [hlen]
  simp

lemma zfill_all_digits (s : String)
    (h : ∀ c ∈ s.data, isDecimalDigit c = true) :
    ∀ c ∈ (zfill s 10).data, isDecimalDigit c = true := by
  intro c hc
  rw [zfill_data] at hc
  rcases List.mem_append.mp hc with hc | hc
  · rw [List.eq_of_mem_replicate hc]
    decide
  · exact h c hc

lemma extractDigits_all_digits (s : String) :
    ∀ c ∈ (extractDigits s).data, isDecimalDigit c = true := by
  intro c hc
  exact (List.mem_filter.mp hc).2

lemma extractDigits_self (s : String)
    (h : ∀ c ∈ s.data, isDecimalDigit c = true) :
    extractDigits s = s := by
  unfold extractDigits
  rw [List.filter_eq_self.mpr h]

lemma validate_shape (raw : RawInput) :
    validate_iran_national_code raw = ("", false, "empty input") ∨
    validate_iran_national_code raw = ("", false, "no digits found") ∨
    validate_iran_national_code raw = ("", false, "more than 10 digits") ∨
    ((validate_iran_national_code raw).1.data.length = 10 ∧
      (∀ c ∈ (validate_iran_national_code raw).1.data, isDecimalDigit c = true) ∧
      validate_iran_national_code raw =
        checkNormalized (validate_iran_national_code raw).1) := by
  by_cases h0 : raw = RawInput.absent
  · subst h0
    exact Or.inl rfl
  · rw [validate_eq_body raw h0]
    by_cases h1 : (extractDigits (rawText raw)).data = []
    · rw [if_pos h1]
      exact Or.inr (Or.inl rfl)
    · rw [if_neg h1]
      by_cases h2 : (extractDigits (rawText raw)).data.length < 10
      · rw [if_pos h2]
        refine Or.inr (Or.inr (Or.inr ?_))
        rw [checkNormalized_fst]
        exact ⟨zfill_length _ (Nat.le_of_lt h2),
          zfill_all_digits _ (extractDigits_all_digits _), rfl⟩
      · rw [if_neg h2]
        by_cases h3 : 10 < (extractDigits (rawText raw)).data.length
        · rw [if_pos h3]
          exact Or.inr (Or.inr (Or.inl rfl))
        · rw [if_neg h3]
          refine Or.inr (Or.inr (Or.inr ?_))
          rw [checkNormalized_fst]
          exact ⟨by omega, extractDigits_all_digits _, rfl⟩

lemma getD_map_digitVal (l : List Char) (i : Nat) :
    (l.map digitVal).getD i 0 = digitVal (l.getD i '0') := by
  induction l generalizing i with
  | nil =>
    simp only [List.map_nil, List.getD_nil]
    decide
  | cons c t ih =>
    cases i with
    | zero => simp
    | succ j =>
      simp only [List.map_cons, List.getD_cons_succ]
      exact ih j

lemma specTotal_digitsOf (s : String) :
    specTotal (digitsOf s) = weightedTotal s := by
  unfold specTotal weightedTotal digitsOf
  congr 1
  refine List.map_congr_left ?_
  intro i _
  rw [getD_map_digitVal]

lemma digitsOf_getD_nine (s : String) (hlen : s.data.length = 10) :
    (digitsOf s).getD 9 0 = checkDigit s := by
  unfold digitsOf checkDigit
  rw [getD_map_digitVal, hlen]

lemma specAccepts_eq (s : String) (hlen : s.data.length = 10) :
    specChecksumAccepts (digitsOf s) =
      ((decide (weightedTotal s % 11 < 2) &&
          (checkDigit s == weightedTotal s % 11)) ||
        (decide (2 ≤ weightedTotal s % 11) &&
          (checkDigit s == 11 - weightedTotal s % 11))) := by
  unfold specChecksumAccepts
  rw [specTotal_digitsOf, digitsOf_getD_nine s hlen]
  by_cases hr : weightedTotal s % 11 < 2
  · have hr2 : ¬ 2 ≤ weightedTotal s % 11 := by omega
    simp [hr, hr2]
  · have hr2 : 2 ≤ weightedTotal s % 11 := by omega
    simp [hr, hr2]

lemma checkNormalized_eq_spec (m : String) (hlen : m.data.length = 10)
    (hni : allIdentical m = false) :
    checkNormalized m =
      (if specChecksumAccepts (digitsOf m) then
        (m, true, "valid national code")
      else
        (m, false, "checksum mismatch")) := by
  unfold checkNormalized
  rw [hni, specAccepts_eq m hlen]
  simp

lemma two_distinct_of_not_allIdentical (s : String) (hne : s.data ≠ [])
    (hni : allIdentical s = false) :
    ∃ c1 ∈ s.data, ∃ c2 ∈ s.data, c1 ≠ c2 := by
  unfold allIdentical at hni
  cases hd : s.data with
  | nil => exact absurd hd hne
  | cons c rest =>
    rw [hd] at hni
    obtain ⟨x, hx, hxc⟩ := List.all_eq_false.mp hni
    refine ⟨c, List.mem_cons_self c rest,
      x, List.mem_cons_of_mem c hx, ?_⟩
    intro hcx
    subst hcx
    exact hxc (beq_self_eq_true c)

lemma msg_ne_empty_input (raw : RawInput) (h0 : raw ≠ RawInput.absent) :
    (validate_iran_national_code raw).2.2 ≠ "empty input" := by
  rw [validate_eq_body raw h0]
  by_cases h1 : (extractDigits (rawText raw)).data = []
  · rw [if_pos h1]; decide
  · rw [if_neg h1]
    by_cases h2 : (extractDigits (rawText raw)).data.length < 10
    · rw [if_pos h2]
      rcases checkNormalized_cases (zfill (extractDigits (rawText raw)) 10) with
        hc | hc | hc
      · rw [hc]
        exact (by decide : ("all digits identical" : String) ≠ "empty input")
      · rw [hc]
        exact (by decide : ("valid national code" : String) ≠ "empty input")
      · rw [hc]
        exact (by decide : ("checksum mismatch" : String) ≠ "empty input")
    · rw [if_neg h2]
      by_cases h3 : 10 < (extractDigits (rawText raw)).data.length
      · rw [if_pos h3]; decide
      · rw [if_neg h3]
        rcases checkNormalized_cases (extractDigits (rawText raw)) with
          hc | hc | hc
        · rw [hc]
          exact (by decide : ("all digits identical" : String) ≠ "empty input")
        · rw [hc]
          exact (by decide : ("valid national code" : String) ≠ "empty input")
        · rw [hc]
          exact (by decide : ("checksum mismatch" : String) ≠ "empty input")

lemma wellformed_triple (n : String) (v : Bool) (msg : String)
    (hmem : msg ∈ ["empty input", "no digits found", "more than 10 digits",
      "all digits identical", "checksum mismatch", "valid national code"])
    (hiff : v = true ↔ msg = "valid national code") :
    (((n, v, msg) : String × Bool × String)).2.2 ∈
      ["empty input", "no digits found", "more than 10 digits",
       "all digits identical", "checksum mismatch", "valid national code"] ∧
    ((((n, v, msg) : String × Bool × String)).2.1 = true ↔
      (((n, v, msg) : String × Bool × String)).2.2 = "valid national code") :=
  ⟨hmem, hiff⟩

/-- Claim C1: for every input that reaches the checksum step (non-absent,
some digits extracted, at most 10 of them, and the padded 10-digit code not
all identical), `validate_iran_national_code` returns the normalized code
with `is_valid = true` and message `"valid national code"` exactly when the
mod-11 rule of the spec accepts the digit list, and with `is_valid = false`
and message `"checksum mismatch"` otherwise; the normalized code is returned
unchanged in both cases. -/
theorem checksum_step_iff (raw : RawInput) (h0 : raw ≠ RawInput.absent)
    (h1 : (extractDigits (rawText raw)).data ≠ [])
    (h2 : (extractDigits (rawText raw)).data.length ≤ 10)
    (h3 : allIdentical (zfill (extractDigits (rawText raw)) 10) = false) :
    validate_iran_national_code raw =
      (if specChecksumAccepts (digitsOf (zfill (extractDigits (rawText raw)) 10)) then
        (zfill (extractDigits (rawText raw)) 10, true, "valid national code")
      else
        (zfill (extractDigits (rawText raw)) 10, false, "checksum mismatch")) := by
  rw [validate_eq_body raw h0, if_neg h1]
  by_cases hlt : (extractDigits (rawText raw)).data.length < 10
  · rw [if_pos hlt]
    exact checkNormalized_eq_spec _ (zfill_length _ (Nat.le_of_lt hlt)) h3
  · have hlen : (extractDigits (rawText raw)).data.length = 10 := by omega
    rw [if_neg hlt, if_neg (by omega : ¬ 10 < (extractDigits (rawText raw)).data.length)]
    rw [zfill_eq_self _ hlen] at h3 ⊢
    exact checkNormalized_eq_spec _ hlen h3

/-- Witness for C1 at the concrete input `"0371591333"`, whose checksum is
correct. -/
theorem checksum_step_iff_witness :
    validate_iran_national_code (RawInput.str "0371591333") =
      ("0371591333", true, "valid national code") := by
  have h := checksum_step_iff (RawInput.str "0371591333")
    (by decide) (by decide) (by decide) (by decide)
  rw [h]
  decide

/-- Claim C2: on input `"0371591336"` the function returns exactly
`("0371591336", false, "checksum mismatch")`; the weighted sum is 184,
`184 % 11 = 8`, `8 ≥ 2` so the expected check digit is `11 - 8 = 3`, and the
actual last digit is 6. -/
theorem worked_example_0371591336 :
    validate_iran_national_code (RawInput.str "0371591336") =
      ("0371591336", false, "checksum mismatch") ∧
    weightedTotal "0371591336" = 184 ∧ 184 % 11 = 8 ∧
    (11 : Nat) - 8 = 3 ∧ checkDigit "0371591336" = 6 := by decide

/-- Claim C3: the function is total and well-formed on every input: the
message component is always one of the six fixed messages, and
`is_valid = true` holds exactly when the message is `"valid national code"`,
so every rejection is `is_valid = false` plus a message.  (Totality itself is
inherent: `validate_iran_national_code` is a total Lean function, with no
error or exception channel in its type.) -/
theorem validate_total_wellformed (raw : RawInput) :
    (validate_iran_national_code raw).2.2 ∈
      ["empty input", "no digits found", "more than 10 digits",
       "all digits identical", "checksum mismatch", "valid national code"] ∧
    ((validate_iran_national_code raw).2.1 = true ↔
      (validate_iran_national_code raw).2.2 = "valid national code") := by
  rcases validate_shape raw with h | h | h | ⟨-, -, h⟩
  · rw [h]; decide
  · rw [h]; decide
  · rw [h]; decide
  · rw [h]
    rcases checkNormalized_cases (validate_iran_national_code raw).1 with
      hc | hc | hc <;> rw [hc] <;>
      exact wellformed_triple _ _ _ (by decide) (by decide)

/-- Claim C4 states that a non-empty normalized code consists of ASCII
digits `0`–`9`, but the code violates this: Python's `\d` is Unicode-aware,
so on the ten Persian digits `"۱۲۳۴۵۶۷۸۹۰"` the function returns a
non-empty, 10-character normalized code in which no character is an ASCII
digit.  (An Iranian national code is ten ASCII digits, so the spec's
invariant is the evident intent and the Unicode-wide digit class of the
code a slip.)  This theorem evaluates the code at that failing input. -/
theorem nonascii_normalized_failing_input :
    (validate_iran_national_code (RawInput.str "۱۲۳۴۵۶۷۸۹۰")).1 ≠ "" ∧
    (validate_iran_national_code (RawInput.str "۱۲۳۴۵۶۷۸۹۰")).1.length = 10 ∧
    (validate_iran_national_code (RawInput.str "۱۲۳۴۵۶۷۸۹۰")).1.data.all
      (fun c => !(decide ('0' ≤ c) && decide (c ≤ '9'))) = true := by decide

/-- Counterexample to claim C5 as stated: on `"11111111۱1"` (nine ASCII
`1`s with a Persian `۱` in position 8) the program returns
`is_valid = true`, yet every digit of the normalized code has the value 1 —
the code contains two distinct characters but only one distinct digit
value.  (Weighted total 54, remainder 10, expected check digit
`11 - 10 = 1` = actual.) -/
theorem single_digit_value_valid_counterexample :
    (validate_iran_national_code (RawInput.str "11111111۱1")).2.1 = true ∧
    (digitsOf (validate_iran_national_code (RawInput.str "11111111۱1")).1).all
      (fun d => d == 1) = true := by decide

/-- Claim C5, amended (the degeneracy test `len(set(...)) == 1` compares
characters, not digit values): `is_valid = true` implies the normalized
code is non-empty, contains at least two distinct characters, and its digit
list satisfies the mod-11 checksum rule; and an empty normalized code
always pairs with `is_valid = false`. -/
theorem valid_implications (raw : RawInput) :
    ((validate_iran_national_code raw).2.1 = true →
      (validate_iran_national_code raw).1 ≠ "" ∧
      (∃ c1 ∈ (validate_iran_national_code raw).1.data,
        ∃ c2 ∈ (validate_iran_national_code raw).1.data, c1 ≠ c2) ∧
      specChecksumAccepts (digitsOf (validate_iran_national_code raw).1) = true) ∧
    ((validate_iran_national_code raw).1 = "" →
      (validate_iran_national_code raw).2.1 = false) := by
  rcases validate_shape raw with hs | hs | hs | ⟨hlen, -, heq⟩
  · rw [hs]; exact ⟨fun hv => absurd hv (by decide), fun _ => rfl⟩
  · rw [hs]; exact ⟨fun hv => absurd hv (by decide), fun _ => rfl⟩
  · rw [hs]; exact ⟨fun hv => absurd hv (by decide), fun _ => rfl⟩
  · constructor
    · intro hv
      have hv2 : (checkNormalized (validate_iran_national_code raw).1).2.1 = true := by
        rw [← heq]; exact hv
      obtain ⟨hni, hcond⟩ := checkNormalized_valid _ hv2
      refine ⟨?_, ?_, ?_⟩
      · intro he
        rw [he] at hlen
        exact absurd hlen (by decide)
      · exact two_distinct_of_not_allIdentical _
          (List.length_pos.mp (by omega)) hni
      · rw [specAccepts_eq _ hlen]
        exact hcond
    · intro he
      rw [he] at hlen
      exact absurd hlen (by decide)

/-- Witness for C5 at the concrete valid input `"0371591333"`. -/
theorem valid_implications_witness :
    (validate_iran_national_code (RawInput.str "0371591333")).1 ≠ "" :=
  ((valid_implications (RawInput.str "0371591333")).1 (by decide)).1

/-- Claim C6: normalization is idempotent: whenever the returned normalized
code is non-empty, re-validating that code returns the identical triple
(same normalized code, same validity, same message). -/
theorem revalidate_idempotent (raw : RawInput)
    (h : (validate_iran_national_code raw).1 ≠ "") :
    validate_iran_national_code
        (RawInput.str (validate_iran_national_code raw).1) =
      validate_iran_national_code raw := by
  rcases validate_shape raw with hs | hs | hs | ⟨hlen, hdig, heq⟩
  · rw [hs] at h; exact absurd rfl h
  · rw [hs] at h; exact absurd rfl h
  · rw [hs] at h; exact absurd rfl h
  · rw [validate_eq_body _ (fun hc => RawInput.noConfusion hc)]
    have hraw : rawText (RawInput.str (validate_iran_national_code raw).1) =
        (validate_iran_national_code raw).1 := rfl
    rw [hraw, extractDigits_self _ hdig,
      if_neg (List.length_pos.mp (by omega : 0 < (validate_iran_national_code raw).1.data.length)),
      if_neg (by omega : ¬ (validate_iran_national_code raw).1.data.length < 10),
      if_neg (by omega : ¬ 10 < (validate_iran_national_code raw).1.data.length)]
    exact heq.symm

/-- Witness for C6 at the concrete input `"123"`, normalized to
`"0000000123"`. -/
theorem revalidate_idempotent_witness :
    validate_iran_national_code
        (RawInput.str (validate_iran_national_code (RawInput.str "123")).1) =
      validate_iran_national_code (RawInput.str "123") :=
  revalidate_idempotent (RawInput.str "123") (by decide)

/-- Counterexample to claim C7 as stated: extraction does not remove every
character that is not an ASCII digit `0`–`9` — on `"1۵"` the Persian digit
`۵` is kept, because `re.sub(r"\D", "", ...)` matches every Unicode
decimal digit. -/
theorem extraction_not_ascii_only_counterexample :
    (extractDigits "1۵").data ≠
      "1۵".data.filter (fun c => decide ('0' ≤ c ∧ c ≤ '9')) := by decide

/-- Claim C7, amended (Python's `\d` covers every Unicode decimal digit,
not only ASCII `0`–`9`): digit extraction converts the raw input to its
textual representation and removes exactly those characters that are not
Unicode decimal digits, preserving the order of the remaining digits — the
result is an order-preserving sublist of the input; in particular
`"090 123 456X"` extracts to `"090123456"`, is normalized to
`"0090123456"`, and is validated normally (here the checksum fails). -/
theorem extraction_decimal_digits :
    (∀ s : String, (extractDigits s).data.Sublist s.data ∧
      (extractDigits s).data = s.data.filter (fun c => isDecimalDigit c)) ∧
    extractDigits "090 123 456X" = "090123456" ∧
    validate_iran_national_code (RawInput.str "090 123 456X") =
      checkNormalized "0090123456" ∧
    validate_iran_national_code (RawInput.str "090 123 456X") =
      ("0090123456", false, "checksum mismatch") := by
  exact ⟨fun s => ⟨List.filter_sublist _, rfl⟩, by decide, by decide, by decide⟩

/-- Claim C8: a non-empty extraction of fewer than 10 digits is left-padded
with zeros to exactly 10 and sent through the remaining validation steps,
while an extraction of 11 or more digits is rejected outright as
`("", false, "more than 10 digits")`, never truncated. -/
theorem padding_and_overlength (raw : RawInput) (h0 : raw ≠ RawInput.absent) :
    ((extractDigits (rawText raw)).data ≠ [] →
      (extractDigits (rawText raw)).data.length < 10 →
      (zfill (extractDigits (rawText raw)) 10).data.length = 10 ∧
      validate_iran_national_code raw =
        checkNormalized (zfill (extractDigits (rawText raw)) 10)) ∧
    (10 < (extractDigits (rawText raw)).data.length →
      validate_iran_national_code raw = ("", false, "more than 10 digits")) := by
  rw [validate_eq_body raw h0]
  constructor
  · intro h1 h2
    rw [if_neg h1, if_pos h2]
    exact ⟨zfill_length _ (Nat.le_of_lt h2), rfl⟩
  · intro h3
    have h1 : (extractDigits (rawText raw)).data ≠ [] := by
      intro he
      rw [he] at h3
      simp at h3
    rw [if_neg h1, if_neg (by omega : ¬ (extractDigits (rawText raw)).data.length < 10),
      if_pos h3]

/-- Witness for C8: `"123"` is padded and checked normally, and a 12-digit
input is rejected as over-length. -/
theorem padding_and_overlength_witness :
    validate_iran_national_code (RawInput.str "123") =
      checkNormalized (zfill (extractDigits (rawText (RawInput.str "123"))) 10) ∧
    validate_iran_national_code (RawInput.str "123 456 789 01") =
      ("", false, "more than 10 digits") :=
  ⟨((padding_and_overlength (RawInput.str "123") (by decide)).1
      (by decide) (by decide)).2,
    (padding_and_overlength (RawInput.str "123 456 789 01") (by decide)).2
      (by decide)⟩

/-- Claim C9: each of the ten repeated-digit 10-character codes is rejected
with the normalized code still returned and the message
`"all digits identical"`. -/
theorem repeated_digit_rejected (code : String)
    (h : code ∈ ["0000000000", "1111111111", "2222222222", "3333333333",
      "4444444444", "5555555555", "6666666666", "7777777777",
      "8888888888", "9999999999"]) :
    validate_iran_national_code (RawInput.str code) =
      (code, false, "all digits identical") := by
  simp only [List.mem_cons, List.not_mem_nil, or_false] at h
  rcases h with rfl | rfl | rfl | rfl | rfl | rfl | rfl | rfl | rfl | rfl <;> decide

/-- Witness for C9 at the concrete code `"3333333333"`. -/
theorem repeated_digit_rejected_witness :
    validate_iran_national_code (RawInput.str "3333333333") =
      ("3333333333", false, "all digits identical") :=
  repeated_digit_rejected "3333333333" (by decide)

/-- Claim C10: the empty string yields `("", false, "no digits found")`, the
absent input yields `("", false, "empty input")`, and no string or integer
input can ever produce the `"empty input"` message — that branch is reserved
for the absent input. -/
theorem empty_string_vs_absent :
    validate_iran_national_code (RawInput.str "") =
      ("", false, "no digits found") ∧
    validate_iran_national_code RawInput.absent = ("", false, "empty input") ∧
    (∀ s : String,
      (validate_iran_national_code (RawInput.str s)).2.2 ≠ "empty input") ∧
    (∀ n : Int,
      (validate_iran_national_code (RawInput.int n)).2.2 ≠ "empty input") := by
  refine ⟨by decide, rfl, ?_, ?_⟩
  · intro s
    exact msg_ne_empty_input _ (fun hc => RawInput.noConfusion hc)
  · intro n
    exact msg_ne_empty_input _ (fun hc => RawInput.noConfusion hc)
